import Mathlib

/-!
Verification of the CloudFront request-authorization handler of
`lib/tools_website-stack.cognito-signup.ts` (the CloudFront module of that
file: the `handler`, `checkToken`, `getNewCredentials` and
`refreshCredentials` functions).

The embedding is executable and follows the TypeScript source.  Calls into
the two third-party libraries used by the handler are modelled at the level
of their documented behaviour:

* `cookie.parse` / `cookie.serialize` (npm `cookie`): parsing splits a
  header on `;`, trims, strips one layer of double quotes, percent-decodes,
  and keeps the FIRST occurrence of a duplicate name within one header
  (`if (undefined == obj[key]) obj[key] = value`); serialization is
  `name=encodeURIComponent(value)` followed by the enabled attributes
  (`; Max-Age=<n>` then `; Secure`).
* `jose.jwtVerify`: signature verification is an oracle
  (`World.verifyJWT`); the issuer / audience / expiry claim checks are
  explicit, with the expiry check exclusive (a token whose `exp` equals
  the current time is expired, matching jose's `exp <= now` rejection).
* `node-fetch` and the Cognito token endpoint are an oracle on the posted
  form body (`World.codeEndpoint` / `World.refreshEndpoint`); `none`
  models a thrown network error, a reply with `ok = false` models a
  non-2xx HTTP response.
* `URLSearchParams`: parsing splits on `&`, splits each pair at the first
  `=`, form-decodes (`+` to space, bytewise percent-decoding);
  serialization percent-encodes everything outside `[A-Za-z0-9*-._]` and
  turns spaces into `+`.  Multi-byte percent sequences are decoded
  bytewise, which agrees with the real decoder on ASCII data.

String processing is implemented over `List Char` with structural
recursion so that every definition evaluates inside the kernel.
-/

/-- Splits a character list on a separator character; the separator is not
kept.  `splitOnChar ';' "a;b"` gives `["a", "b"]`, and an empty input gives
one empty segment, as `String.prototype.split` does. -/
def splitOnChar (sep : Char) : List Char → List (List Char)
  | [] => [[]]
  | c :: rest =>
    let r := splitOnChar sep rest
    if c == sep then [] :: r
    else
      match r with
      | [] => [[c]]
      | h :: t => (c :: h) :: t

/-- Characters removed by JavaScript `String.prototype.trim` (the ASCII
whitespace subset, which is all that can appear in a Cookie header). -/
def isTrimChar (c : Char) : Bool :=
  c == ' ' || c == '\t' || c == '\n' || c == '\r' || c == Char.ofNat 11 || c == Char.ofNat 12

/-- Removes leading and trailing whitespace, as `String.prototype.trim`. -/
def trimChars (l : List Char) : List Char :=
  ((l.dropWhile isTrimChar).reverse.dropWhile isTrimChar).reverse

/-- Splits a list at the first `=`: `none` when there is no `=`
(mirroring `indexOf('=') < 0`), otherwise the parts before and after it. -/
def splitAtFirstEq : List Char → Option (List Char × List Char)
  | [] => none
  | c :: rest =>
    if c == '=' then some ([], rest)
    else
      match splitAtFirstEq rest with
      | none => none
      | some (a, b) => some (c :: a, b)

/-- Value of a hexadecimal digit, `none` for a non-digit. -/
def hexVal (c : Char) : Option Nat :=
  if '0' ≤ c ∧ c ≤ '9' then some (c.toNat - 48)
  else if 'A' ≤ c ∧ c ≤ 'F' then some (c.toNat - 55)
  else if 'a' ≤ c ∧ c ≤ 'f' then some (c.toNat - 87)
  else none

/-- Bytewise percent-decoding: `%HH` becomes the byte `HH`; a malformed
escape is kept verbatim (the JavaScript decoders throw and the callers in
the handler's libraries fall back to the raw value). -/
def percentDecodeChars : List Char → List Char
  | [] => []
  | '%' :: a :: b :: rest =>
    match hexVal a, hexVal b with
    | some x, some y => Char.ofNat (16 * x + y) :: percentDecodeChars rest
    | _, _ => '%' :: percentDecodeChars (a :: b :: rest)
  | c :: rest => c :: percentDecodeChars rest

/-- Decoding used by `URLSearchParams`: `+` means space, then
percent-decoding (application/x-www-form-urlencoded). -/
def formDecodeChars (l : List Char) : List Char :=
  percentDecodeChars (l.map fun c => if c == '+' then ' ' else c)

/-- Decoding used by `cookie.parse` (`decodeURIComponent`): plain
percent-decoding, `+` is literal. -/
def uriDecodeChars (l : List Char) : List Char :=
  percentDecodeChars l

/-- Uppercase hexadecimal digit of a nibble. -/
def hexNibble (m : Nat) : Char :=
  if m < 10 then Char.ofNat (48 + m) else Char.ofNat (55 + m)

/-- Percent-escapes one byte as `%HH`. -/
def percentByteChars (b : Nat) : List Char :=
  ['%', hexNibble (b / 16 % 16), hexNibble (b % 16)]

/-- UTF-8 bytes of a character. -/
def utf8Bytes (c : Char) : List Nat :=
  let n := c.toNat
  if n < 128 then [n]
  else if n < 2048 then [192 + n / 64, 128 + n % 64]
  else if n < 65536 then [224 + n / 4096, 128 + n / 64 % 64, 128 + n % 64]
  else [240 + n / 262144, 128 + n / 4096 % 64, 128 + n / 64 % 64, 128 + n % 64]

/-- Concatenating map over characters. -/
def charConcatMap (f : Char → List Char) : List Char → List Char
  | [] => []
  | c :: rest => f c ++ charConcatMap f rest

/-- Concatenating map over bytes. -/
def natConcatMap (f : Nat → List Char) : List Nat → List Char
  | [] => []
  | b :: rest => f b ++ natConcatMap f rest

/-- Characters `encodeURIComponent` leaves unescaped:
`A-Z a-z 0-9 - _ . ! ~ * ' ( )`. -/
def isUriUnreserved (c : Char) : Bool :=
  c.isAlphanum || c == '-' || c == '_' || c == '.' || c == '!' || c == '~' ||
    c == '*' || c == Char.ofNat 39 || c == '(' || c == ')'

/-- JavaScript `encodeURIComponent` over a character list. -/
def encodeURIComponentChars (l : List Char) : List Char :=
  charConcatMap
    (fun c =>
      if isUriUnreserved c then [c] else natConcatMap percentByteChars (utf8Bytes c)) l

/-- JavaScript `encodeURIComponent`. -/
def encodeURIComponentStr (s : String) : String :=
  String.mk (encodeURIComponentChars s.data)

/-- Characters the `application/x-www-form-urlencoded` serializer leaves
unescaped: `A-Z a-z 0-9 * - . _`. -/
def isFormUnreserved (c : Char) : Bool :=
  c.isAlphanum || c == '*' || c == '-' || c == '.' || c == '_'

/-- The `application/x-www-form-urlencoded` percent-encoder used when a
`URLSearchParams` object is serialized into a query string. -/
def formEncodeChars (l : List Char) : List Char :=
  charConcatMap
    (fun c =>
      if c == ' ' then ['+']
      else if isFormUnreserved c then [c]
      else natConcatMap percentByteChars (utf8Bytes c)) l

/-- String-level form of `formEncodeChars`. -/
def formEncode (s : String) : String :=
  String.mk (formEncodeChars s.data)

/-- Joins strings with `&`, as the `URLSearchParams` serializer does. -/
def joinAmp : List String → String
  | [] => ""
  | [s] => s
  | s :: rest => s ++ "&" ++ joinAmp rest

/-- Serialization of a `URLSearchParams` value built from the given pairs
(in order): each pair becomes `encode(name)=encode(value)`, joined by `&`. -/
def searchParamsToQuery (ps : List (String × String)) : String :=
  joinAmp (ps.map fun p => formEncode p.1 ++ "=" ++ formEncode p.2)

/-- Parsing of a query string by the `URLSearchParams` constructor: split
on `&`, drop empty segments, split each segment at the first `=` (a
segment without `=` has the empty value), form-decode names and values. -/
def queryPairsChars (l : List Char) : List (String × String) :=
  (splitOnChar '&' l).filterMap fun seg =>
    if seg.isEmpty then none
    else
      match splitAtFirstEq seg with
      | none => some (String.mk (formDecodeChars seg), "")
      | some (n, v) => some (String.mk (formDecodeChars n), String.mk (formDecodeChars v))

/-- Parses a raw query string, stripping one leading `?` as the
`URLSearchParams` constructor does. -/
def parseQuery (qs : String) : List (String × String) :=
  match qs.data with
  | '?' :: rest => queryPairsChars rest
  | l => queryPairsChars l

/-- `URLSearchParams.get`: value of the first pair with the given name,
`null` (here `none`) when absent. -/
def qsGet (ps : List (String × String)) (name : String) : Option String :=
  match ps.find? (fun p => p.1 == name) with
  | some p => some p.2
  | none => none

/-- A JavaScript object used as a string-keyed dictionary. -/
def StrMap : Type := String → Option String

/-- The empty object `{}`. -/
def emptyStrMap : StrMap := fun _ => none

/-- One step of `cookie.parse`'s loop: `if (undefined == obj[key])
obj[key] = value` — the key is set only when absent (first wins). -/
def objSetIfAbsent (o : StrMap) (k v : String) : StrMap :=
  match o k with
  | some _ => o
  | none => fun q => if q = k then some v else o q

/-- `Object.assign(o, m)` as far as lookups are concerned: keys of `m`
overwrite keys of `o`. -/
def objAssign (o m : StrMap) : StrMap :=
  fun q =>
    match m q with
    | some v => some v
    | none => o q

/-- The name/value pairs of one Cookie header in textual order, as
`cookie.parse` visits them: split on `;`, skip segments without `=`, trim
name and value, strip one layer of surrounding double quotes, decode. -/
def cookiePairs (s : String) : List (String × String) :=
  (splitOnChar ';' s.data).filterMap fun seg =>
    match splitAtFirstEq seg with
    | none => none
    | some (k, v) =>
      let k := trimChars k
      let v := trimChars v
      let v := if v.head? == some '"' then (v.drop 1).dropLast else v
      some (String.mk k, String.mk (uriDecodeChars v))

/-- `cookie.parse`: builds the object from the pairs, first occurrence of
a duplicate name winning within the single header. -/
def cookieParse (s : String) : StrMap :=
  (cookiePairs s).foldl (fun o kv => objSetIfAbsent o kv.1 kv.2) emptyStrMap

/-- The handler's cookie deserialization, line for line:
`Object.assign({}, ...(request.headers.cookie || []).map(entry =>
cookie.parse(entry.value)))` — later headers overwrite earlier ones. -/
def parseCookies (hdrs : List String) : StrMap :=
  (hdrs.map cookieParse).foldl objAssign emptyStrMap

/-- Options the handler passes to `cookie.serialize`. -/
structure CookieSerializeOptions where
  secure : Bool
  maxAge : Option Nat
deriving DecidableEq

/-- `cookie.serialize(name, value, opts)` for the options used by the
handler: `name=encodeURIComponent(value)`, then `; Max-Age=<n>` when
`maxAge` is set, then `; Secure` when `secure` is set (npm `cookie`
appends the attributes in that order). -/
def cookieSerialize (name value : String) (opts : CookieSerializeOptions) : String :=
  let base := name ++ "=" ++ encodeURIComponentStr value
  let withAge :=
    match opts.maxAge with
    | some n => base ++ "; Max-Age=" ++ Nat.repr n
    | none => base
  if opts.secure then withAge ++ "; Secure" else withAge

/-- Configuration injected as `env.json` by the deployment pipeline
(`USER_POOL`, `IDENTITY_DOMAIN`, `TOKEN_REDIRECT`, `CLIENT_ID`,
`CLIENT_SECRET`), immutable per deployment. -/
structure Env where
  IDENTITY_DOMAIN : String
  CLIENT_ID : String
  CLIENT_SECRET : String
  USER_POOL : String
  TOKEN_REDIRECT : String
deriving DecidableEq

/-- Claims of a decoded identity token, as inspected by `jwtVerify` and
`checkToken`. -/
structure TokenClaims where
  iss : String
  aud : String
  exp : Nat
  token_use : String
deriving DecidableEq

/-- Body of a successful authorization-code exchange
(`CognitoTokenResponse` in the source). -/
structure CognitoTokenResponse where
  id_token : String
  access_token : String
  refresh_token : String
deriving DecidableEq

/-- Body of a successful refresh-token exchange
(`CognitoRefreshResponse` in the source). -/
structure CognitoRefreshResponse where
  id_token : String
  access_token : String
deriving DecidableEq

/-- A reply of the token endpoint as the handler observes it through
`node-fetch`: the `ok` flag, HTTP status and status text, the `error`
field read from a failure body, and the parsed success body. -/
structure TokenEndpointReply (α : Type) where
  ok : Bool
  status : Nat
  statusText : String
  errorField : String
  body : α
deriving DecidableEq

/-- The ambient world of one invocation: the current time (seconds), the
JWKS signature oracle (`none` is a token whose signature does not verify
or that is not parseable at all), and the token endpoint's behaviour for
each posted form body (`none` is a thrown network error). -/
structure World where
  now : Nat
  verifyJWT : String → Option TokenClaims
  codeEndpoint : List (String × String) → Option (TokenEndpointReply CognitoTokenResponse)
  refreshEndpoint : List (String × String) → Option (TokenEndpointReply CognitoRefreshResponse)

/-- The expected issuer, line 62 of the source:
`https://cognito-idp.us-east-1.amazonaws.com/${env.USER_POOL}`. -/
def cognitoIssuer (cfg : Env) : String :=
  "https://cognito-idp.us-east-1.amazonaws.com/" ++ cfg.USER_POOL

/-- Line 63 of the source: `30 * 24 * 60 * 60`, thirty days in seconds. -/
def refreshTokenMaxAge : Nat := 30 * 24 * 60 * 60

/-- jose's `jwtVerify(token, JWKS, { issuer, audience })`: signature
verification against the key set, then the issuer, audience and expiry
claim checks.  jose rejects a token with `exp <= now` (exclusive
boundary). -/
def jwtVerify (w : World) (tok issuer audience : String) : Except String TokenClaims :=
  match w.verifyJWT tok with
  | none => Except.error "signature verification failed"
  | some claims =>
    if claims.iss ≠ issuer then Except.error "unexpected iss claim value"
    else if claims.aud ≠ audience then Except.error "unexpected aud claim value"
    else if claims.exp ≤ w.now then Except.error "exp claim timestamp check failed"
    else Except.ok claims

/-- Lines 152-162 of the source: verify the token, then require
`payload.token_use === 'id'`. -/
def checkToken (cfg : Env) (w : World) (id_token : String) : Except String Unit :=
  match jwtVerify w id_token (cognitoIssuer cfg) cfg.CLIENT_ID with
  | Except.error e => Except.error e
  | Except.ok payload =>
    if payload.token_use ≠ "id" then
      Except.error ("Invalid token use: " ++ payload.token_use)
    else Except.ok ()

/-- Form body posted by `getNewCredentials` (lines 168-173). -/
def codeExchangeBody (cfg : Env) (code : String) : List (String × String) :=
  [("grant_type", "authorization_code"), ("redirect_uri", cfg.TOKEN_REDIRECT),
    ("client_id", cfg.CLIENT_ID), ("code", code)]

/-- Form body posted by `refreshCredentials` (lines 203-207). -/
def refreshExchangeBody (cfg : Env) (refresh_token : String) : List (String × String) :=
  [("grant_type", "refresh_token"), ("client_id", cfg.CLIENT_ID),
    ("refresh_token", refresh_token)]

/-- Lines 164-197 of the source: post the code-exchange body; on a non-ok
reply throw the formatted exchange error; on success serialize the three
cookies, the identity and access cookies session-scoped and secure, the
refresh cookie secure with the 30-day max age. -/
def getNewCredentials (cfg : Env) (w : World) (code : String) : Except String (List String) :=
  match w.codeEndpoint (codeExchangeBody cfg code) with
  | none => Except.error "fetch failed"
  | some reply =>
    if reply.ok then
      Except.ok
        [cookieSerialize "id_token" reply.body.id_token ⟨true, none⟩,
          cookieSerialize "access_token" reply.body.access_token ⟨true, none⟩,
          cookieSerialize "refresh_token" reply.body.refresh_token
            ⟨true, some refreshTokenMaxAge⟩]
    else
      Except.error ("Error fetching new credentials: " ++ Nat.repr reply.status ++ " " ++
        reply.statusText ++ " " ++ reply.errorField)

/-- Lines 199-224 of the source: post the refresh-exchange body; on a
non-ok reply throw the formatted error; on success serialize only the
identity and access cookies (no refresh cookie is reissued). -/
def refreshCredentials (cfg : Env) (w : World) (refresh_token : String) :
    Except String (List String) :=
  match w.refreshEndpoint (refreshExchangeBody cfg refresh_token) with
  | none => Except.error "fetch failed"
  | some reply =>
    if reply.ok then
      Except.ok
        [cookieSerialize "id_token" reply.body.id_token ⟨true, none⟩,
          cookieSerialize "access_token" reply.body.access_token ⟨true, none⟩]
    else
      Except.error ("Error refreshing credentials: " ++ Nat.repr reply.status ++ " " ++
        reply.statusText ++ " " ++ reply.errorField)

/-- The CloudFront request as the handler reads it: URI path, raw query
string, and the `cookie` entries of the header map (`none` when the
header map has no `cookie` key at all). -/
structure CFRequest where
  uri : String
  querystring : String
  cookieHdrs : Option (List String)
deriving DecidableEq

/-- A generated response: status, status description, the `location`
header value, and the `set-cookie` header values (`none` when the
response object carries no `set-cookie` key, as in the 303 branch). -/
structure CFResponse where
  status : String
  statusDescription : String
  location : String
  setCookie : Option (List String)
deriving DecidableEq

/-- Result of the handler: either the original request passed through
unmodified, or a generated response. -/
inductive HandlerResult where
  | passthrough (request : CFRequest)
  | response (r : CFResponse)
deriving DecidableEq

/-- JavaScript truthiness of a nullable string: `null` and `''` are
falsy. -/
def truthy : Option String → Bool
  | none => false
  | some s => s != ""

/-- Line 70 of the source: `request.headers.cookie || []`. -/
def cookieList (request : CFRequest) : List String :=
  request.cookieHdrs.getD []

/-- The `cookies` object of lines 70-71. -/
def requestCookies (request : CFRequest) : StrMap :=
  parseCookies (cookieList request)

/-- Line 143-147 of the source: the `Location` of the 303 redirect,
`new URL('?' + new URLSearchParams({response_type, client_id,
redirect_uri}), 'https://{IDENTITY_DOMAIN}/login').toString()` — the
relative `?query` resolves against the base, keeping its path. -/
def authLocation (cfg : Env) : String :=
  "https://" ++ cfg.IDENTITY_DOMAIN ++ "/login?" ++
    searchParamsToQuery
      [("response_type", "code"), ("client_id", cfg.CLIENT_ID),
        ("redirect_uri", cfg.TOKEN_REDIRECT)]

/-- Lines 139-149: cases 4/5, the 303 "See Other" to the identity
provider's hosted login page (no `set-cookie` key on this response). -/
def authRedirectStep (cfg : Env) : HandlerResult :=
  HandlerResult.response ⟨"303", "See Other", authLocation cfg, none⟩

/-- Lines 121-135 and the fallthrough to 139-149: if a refresh-token
cookie is (truthily) present, try the refresh exchange; on success a 307
back to the requested URI carrying the renewed cookies, on a caught
failure fall through to the 303. -/
def tryRefreshStep (cfg : Env) (w : World) (request : CFRequest) (cookies : StrMap) :
    HandlerResult :=
  if truthy (cookies "refresh_token") then
    match refreshCredentials cfg w ((cookies "refresh_token").getD "") with
    | Except.ok newCookies =>
      HandlerResult.response ⟨"307", "Temporary Redirect", request.uri, some newCookies⟩
    | Except.error _ => authRedirectStep cfg
  else authRedirectStep cfg

/-- Lines 108-119 and the fallthrough: if an identity-token cookie is
(truthily) present, validate it; pass the request through when it
validates, otherwise (caught validation error) continue with the
refresh-token step. -/
def idTokenStep (cfg : Env) (w : World) (request : CFRequest) (cookies : StrMap) :
    HandlerResult :=
  if truthy (cookies "id_token") then
    match checkToken cfg w ((cookies "id_token").getD "") with
    | Except.ok _ => HandlerResult.passthrough request
    | Except.error _ => tryRefreshStep cfg w request cookies
  else tryRefreshStep cfg w request cookies

/-- Lines 67-150 of the source, the exported handler.  The straight-line
fallthrough of the TypeScript is rendered as the chain
login-code branch, login-page branch, `idTokenStep`, `tryRefreshStep`,
`authRedirectStep`. -/
def handler (cfg : Env) (w : World) (request : CFRequest) : HandlerResult :=
  let cookies := requestCookies request
  let loginCode := qsGet (parseQuery request.querystring) "code"
  if request.uri == "/login" && truthy loginCode then
    match getNewCredentials cfg w (loginCode.getD "") with
    | Except.ok newCookies =>
      HandlerResult.response ⟨"307", "Temporary Redirect", "/", some newCookies⟩
    | Except.error _ => HandlerResult.passthrough request
  else if request.uri == "/login" then
    HandlerResult.passthrough request
  else
    idTokenStep cfg w request cookies

/-- Boolean form of "this result is a raised error". -/
def isErrorResult : Except String Unit → Bool
  | Except.error _ => true
  | Except.ok _ => false

/-- Concrete configuration used by the evaluation witnesses (the values
of the spec's concrete scenario in section 8). -/
def cfgA : Env :=
  ⟨"auth.example.com", "abc", "s3cr3t", "us-east-1_pool", "https://site.example/login"⟩

/-- Claims of the concrete valid token `T`: correct issuer and audience,
expiry 1000, declared use `id`. -/
def claimsA : TokenClaims := ⟨cognitoIssuer cfgA, "abc", 1000, "id"⟩

/-- A successful code-exchange reply. -/
def okTokenReply : TokenEndpointReply CognitoTokenResponse :=
  ⟨true, 200, "OK", "", ⟨"newid", "newacc", "newref"⟩⟩

/-- A successful refresh-exchange reply. -/
def okRefreshReply : TokenEndpointReply CognitoRefreshResponse :=
  ⟨true, 200, "OK", "", ⟨"newid", "newacc"⟩⟩

/-- A rejected code-exchange reply (consumed or invalid code). -/
def badTokenReply : TokenEndpointReply CognitoTokenResponse :=
  ⟨false, 400, "Bad Request", "invalid_grant", ⟨"", "", ""⟩⟩

/-- Concrete world at time 10 where token `T` verifies with `claimsA` and
both exchanges succeed. -/
def wA : World :=
  ⟨10, fun t => if t == "T" then some claimsA else none,
    fun _ => some okTokenReply, fun _ => some okRefreshReply⟩

/-- Concrete world whose code exchange is rejected by the provider. -/
def wFail : World :=
  ⟨10, fun _ => none, fun _ => some badTokenReply,
    fun _ => some ⟨false, 400, "Bad Request", "invalid_grant", ⟨"", ""⟩⟩⟩

/-- Concrete world at time 1000: token `T` verifies with `claimsA`, whose
expiry is exactly 1000 — the expiry boundary case. -/
def wBoundary : World :=
  ⟨1000, fun t => if t == "T" then some claimsA else none, fun _ => none, fun _ => none⟩

/-- Login-path request carrying a code and no cookies. -/
def reqLoginCode : CFRequest := ⟨"/login", "code=XYZ", none⟩

/-- Login-path request carrying a code and a valid identity token. -/
def reqLoginCodeWithToken : CFRequest := ⟨"/login", "code=XYZ", some ["id_token=T"]⟩

/-- Login-path request with no code but a refresh-token cookie. -/
def reqLoginRefresh : CFRequest := ⟨"/login", "", some ["refresh_token=R"]⟩

/-- Plain request with no cookie header at all. -/
def reqPlain : CFRequest := ⟨"/index.html", "", none⟩

/-- Plain request carrying only a refresh-token cookie. -/
def reqRefresh : CFRequest := ⟨"/page", "", some ["refresh_token=R"]⟩

/-- Plain request carrying only the identity token `T`. -/
def reqToken : CFRequest := ⟨"/page", "", some ["id_token=T"]⟩

/-- Plain request off the login path whose cookie header list is present
but empty. -/
def reqOther : CFRequest := ⟨"/x", "", some []⟩

theorem strDataAppend (a b : String) : (a ++ b).data = a.data ++ b.data := rfl

theorem strOfDataEq {a b : String} (h : a.data = b.data) : a = b := by
  cases a; cases b; exact congrArg String.mk h

theorem lookupConsTW (k v q : String) (rest : List (String × String)) :
    List.lookup q ((k, v) :: rest) = if q = k then some v else List.lookup q rest := by
  by_cases h : q = k
  · simp [List.lookup, h]
  · have hb : (q == k) = false := beq_eq_false_iff_ne.mpr h
    simp [List.lookup, hb, h]

theorem foldlSetIfAbsentApply (ps : List (String × String)) :
    ∀ (o : StrMap) (q : String),
      (ps.foldl (fun acc kv => objSetIfAbsent acc kv.1 kv.2) o) q =
        match o q with
        | some v => some v
        | none => ps.lookup q := by
  induction ps with
  | nil =>
    intro o q
    cases h : o q <;> simp [List.lookup, h]
  | cons kv rest ih =>
    intro o q
    obtain ⟨k, v⟩ := kv
    have step : List.foldl (fun acc kv => objSetIfAbsent acc kv.1 kv.2) o ((k, v) :: rest) =
        List.foldl (fun acc kv => objSetIfAbsent acc kv.1 kv.2) (objSetIfAbsent o k v) rest := rfl
    rw [step, ih, lookupConsTW]
    by_cases hqk : q = k
    · subst hqk
      cases hk : o q with
      | some w => simp [objSetIfAbsent, hk]
      | none => simp [objSetIfAbsent, hk]
    · cases hk : o k with
      | some w => simp only [objSetIfAbsent, hk, if_neg hqk]
      | none => simp only [objSetIfAbsent, hk, if_neg hqk]

theorem cookieParseApply (s : String) (q : String) :
    cookieParse s q = (cookiePairs s).lookup q := by
  have h := foldlSetIfAbsentApply (cookiePairs s) emptyStrMap q
  simpa [cookieParse, emptyStrMap] using h

theorem findSomeAppendTW {α β : Type} (l₁ l₂ : List α) (f : α → Option β) :
    (l₁ ++ l₂).findSome? f =
      match l₁.findSome? f with
      | some b => some b
      | none => l₂.findSome? f := by
  induction l₁ with
  | nil => simp [List.findSome?]
  | cons a rest ih =>
    cases h : f a <;> simp [List.findSome?, h, ih]

theorem findSomeMapTW {α β γ : Type} (l : List α) (g : α → γ) (f : γ → Option β) :
    (l.map g).findSome? f = l.findSome? (fun a => f (g a)) := by
  induction l with
  | nil => simp
  | cons a rest ih =>
    cases h : f (g a) <;> simp [List.findSome?, h, ih]

theorem foldlAssignApply (ms : List StrMap) :
    ∀ (o : StrMap) (q : String),
      (ms.foldl objAssign o) q =
        match ms.reverse.findSome? (fun m => m q) with
        | some v => some v
        | none => o q := by
  induction ms with
  | nil => intro o q; simp [List.findSome?]
  | cons m rest ih =>
    intro o q
    have step : List.foldl objAssign o (m :: rest) = List.foldl objAssign (objAssign o m) rest := rfl
    rw [step, ih, List.reverse_cons, findSomeAppendTW]
    cases h : rest.reverse.findSome? (fun m => m q) with
    | some v => simp
    | none => cases hm : m q <;> simp [List.findSome?, hm, objAssign]

theorem hexNibbleBounded : ∀ m : Nat, m < 16 → hexNibble m ≠ ';' := by decide

theorem semiNotInPercentByteChars (b : Nat) : ';' ∉ percentByteChars b := by
  have h1 : hexNibble (b / 16 % 16) ≠ ';' := hexNibbleBounded _ (Nat.mod_lt _ (by decide))
  have h2 : hexNibble (b % 16) ≠ ';' := hexNibbleBounded _ (Nat.mod_lt _ (by decide))
  intro hmem
  rcases List.mem_cons.mp hmem with h | hmem
  · exact absurd h (by decide)
  rcases List.mem_cons.mp hmem with h | hmem
  · exact h1 h.symm
  rcases List.mem_cons.mp hmem with h | hmem
  · exact h2 h.symm
  · exact absurd hmem (List.not_mem_nil _)

theorem semiNotInNatConcatMap (bs : List Nat) : ';' ∉ natConcatMap percentByteChars bs := by
  induction bs with
  | nil => simp [natConcatMap]
  | cons b rest ih =>
    simp only [natConcatMap, List.mem_append]
    intro h
    rcases h with h | h
    · exact semiNotInPercentByteChars b h
    · exact ih h

theorem semiNotInCharConcatMap (f : Char → List Char) (hf : ∀ c, ';' ∉ f c) :
    ∀ l : List Char, ';' ∉ charConcatMap f l := by
  intro l
  induction l with
  | nil => simp [charConcatMap]
  | cons c rest ih =>
    simp only [charConcatMap, List.mem_append]
    intro h
    rcases h with h | h
    · exact hf c h
    · exact ih h

theorem semiNotInEncodeChars (l : List Char) : ';' ∉ encodeURIComponentChars l := by
  refine semiNotInCharConcatMap _ (fun c => ?_) l
  by_cases hc : isUriUnreserved c = true
  · rw [if_pos hc]
    intro h
    rcases List.mem_cons.mp h with h | h
    · rw [← h] at hc
      exact absurd hc (by decide)
    · exact absurd h (List.not_mem_nil _)
  · rw [if_neg hc]
    exact semiNotInNatConcatMap _

theorem semiNotInEncodeStr (v : String) : ';' ∉ (encodeURIComponentStr v).data :=
  semiNotInEncodeChars v.data

theorem mapReverseTW {α β : Type} (f : α → β) (l : List α) :
    (l.map f).reverse = l.reverse.map f := by
  simp

/-- C1 (amended): for a request that is not a login-path request carrying
a login code, a (truthily present) identity-token cookie that passes
validation makes the handler return the original request unmodified. -/
theorem c1_valid_token_passthrough (cfg : Env) (w : World) (req : CFRequest)
    (hnc : ¬(req.uri = "/login" ∧ truthy (qsGet (parseQuery req.querystring) "code") = true))
    (hid : truthy (requestCookies req "id_token") = true)
    (hok : checkToken cfg w ((requestCookies req "id_token").getD "") = Except.ok ()) :
    handler cfg w req = HandlerResult.passthrough req := by
  by_cases hL : req.uri = "/login"
  · have hlc : truthy (qsGet (parseQuery req.querystring) "code") = false := by
      cases h : truthy (qsGet (parseQuery req.querystring) "code")
      · rfl
      · exact absurd ⟨hL, h⟩ hnc
    simp [handler, hL, hlc]
  · have hbeq : (req.uri == "/login") = false := beq_eq_false_iff_ne.mpr hL
    simp [handler, hbeq, idTokenStep, hid, hok]

theorem c1_witness : handler cfgA wA reqToken = HandlerResult.passthrough reqToken :=
  c1_valid_token_passthrough cfgA wA reqToken (by decide) (by decide) rfl

/-- C1 counterexample: on `/login?code=XYZ` the identity-token cookie `T`
passes validation, yet the handler answers with a 307 carrying Set-Cookie
headers instead of passing the request through. -/
theorem c1_counterexample :
    requestCookies reqLoginCodeWithToken "id_token" = some "T" ∧
      checkToken cfgA wA "T" = Except.ok () ∧
      handler cfgA wA reqLoginCodeWithToken =
        HandlerResult.response ⟨"307", "Temporary Redirect", "/",
          some [cookieSerialize "id_token" "newid" ⟨true, none⟩,
            cookieSerialize "access_token" "newacc" ⟨true, none⟩,
            cookieSerialize "refresh_token" "newref" ⟨true, some refreshTokenMaxAge⟩]⟩ ∧
      handler cfgA wA reqLoginCodeWithToken ≠ HandlerResult.passthrough reqLoginCodeWithToken :=
  ⟨rfl, rfl, rfl, by decide⟩

/-- C2: with no cookies and no login code, off the login path, the
handler answers 303 "See Other" to the identity provider's hosted login
page with response_type, client_id and redirect_uri form-encoded in the
query string. -/
theorem c2_no_creds_redirect (cfg : Env) (w : World) (req : CFRequest)
    (hck : cookieList req = [])
    (hq : qsGet (parseQuery req.querystring) "code" = none)
    (hL : req.uri ≠ "/login") :
    handler cfg w req = HandlerResult.response ⟨"303", "See Other", authLocation cfg, none⟩ ∧
      authLocation cfg = "https://" ++ cfg.IDENTITY_DOMAIN ++
        "/login?response_type=code&client_id=" ++ formEncode cfg.CLIENT_ID ++
        "&redirect_uri=" ++ formEncode cfg.TOKEN_REDIRECT := by
  constructor
  · have hemp : ∀ n, requestCookies req n = none := by
      intro n
      simp [requestCookies, hck, parseCookies, emptyStrMap]
    have hbeq : (req.uri == "/login") = false := beq_eq_false_iff_ne.mpr hL
    simp [handler, hbeq, hq, truthy, idTokenStep, tryRefreshStep, authRedirectStep, hemp]
  · apply strOfDataEq
    simp only [authLocation, searchParamsToQuery, List.map, joinAmp, strDataAppend,
      List.append_assoc]
    rfl

theorem c2_witness :
    handler cfgA wA reqOther = HandlerResult.response ⟨"303", "See Other", authLocation cfgA, none⟩ :=
  (c2_no_creds_redirect cfgA wA reqOther rfl rfl (by decide)).1

/-- C3: on the login path with a code whose exchange succeeds, the
handler answers 307 to the site root with exactly the three secure
cookies, only the refresh-token cookie carrying the 30-day Max-Age. -/
theorem c3_login_code_success (cfg : Env) (w : World) (req : CFRequest) (c : String)
    (reply : TokenEndpointReply CognitoTokenResponse)
    (hL : req.uri = "/login")
    (hq : qsGet (parseQuery req.querystring) "code" = some c)
    (hc : c ≠ "")
    (hep : w.codeEndpoint (codeExchangeBody cfg c) = some reply)
    (hok : reply.ok = true) :
    handler cfg w req = HandlerResult.response ⟨"307", "Temporary Redirect", "/",
      some [cookieSerialize "id_token" reply.body.id_token ⟨true, none⟩,
        cookieSerialize "access_token" reply.body.access_token ⟨true, none⟩,
        cookieSerialize "refresh_token" reply.body.refresh_token
          ⟨true, some refreshTokenMaxAge⟩]⟩ ∧
    refreshTokenMaxAge = 2592000 ∧
    (∀ v, cookieSerialize "id_token" v ⟨true, none⟩ =
      "id_token=" ++ encodeURIComponentStr v ++ "; Secure") ∧
    (∀ v, cookieSerialize "access_token" v ⟨true, none⟩ =
      "access_token=" ++ encodeURIComponentStr v ++ "; Secure") ∧
    (∀ v, cookieSerialize "refresh_token" v ⟨true, some refreshTokenMaxAge⟩ =
      "refresh_token=" ++ encodeURIComponentStr v ++ "; Max-Age=2592000; Secure") ∧
    (∀ v, ';' ∉ (encodeURIComponentStr v).data) := by
  have hb : (c != "") = true := bne_iff_ne.mpr hc
  refine ⟨?_, rfl, fun v => rfl, fun v => rfl, fun v => ?_, fun v => semiNotInEncodeStr v⟩
  · simp [handler, hL, hq, truthy, hb, getNewCredentials, hep, hok]
  · have h0 : cookieSerialize "refresh_token" v ⟨true, some refreshTokenMaxAge⟩ =
        "refresh_token" ++ "=" ++ encodeURIComponentStr v ++ "; Max-Age=" ++
          Nat.repr refreshTokenMaxAge ++ "; Secure" := rfl
    rw [h0]
    apply strOfDataEq
    simp only [strDataAppend, List.append_assoc]
    rfl

theorem c3_witness :
    handler cfgA wA reqLoginCode = HandlerResult.response ⟨"307", "Temporary Redirect", "/",
      some [cookieSerialize "id_token" "newid" ⟨true, none⟩,
        cookieSerialize "access_token" "newacc" ⟨true, none⟩,
        cookieSerialize "refresh_token" "newref" ⟨true, some refreshTokenMaxAge⟩]⟩ :=
  (c3_login_code_success cfgA wA reqLoginCode "XYZ" okTokenReply rfl rfl (by decide) rfl rfl).1

/-- C4 (amended): off the login path, when the identity token is missing
or fails validation and the refresh exchange succeeds for the
refresh-token cookie, the handler answers 307 back to the requested URI
with exactly the two renewed cookies and no refresh-token cookie. -/
theorem c4_refresh_success (cfg : Env) (w : World) (req : CFRequest) (rt : String)
    (reply : TokenEndpointReply CognitoRefreshResponse)
    (hL : req.uri ≠ "/login")
    (hid : truthy (requestCookies req "id_token") = false ∨
      ∃ e, checkToken cfg w ((requestCookies req "id_token").getD "") = Except.error e)
    (hrt : requestCookies req "refresh_token" = some rt)
    (hrt2 : rt ≠ "")
    (hep : w.refreshEndpoint (refreshExchangeBody cfg rt) = some reply)
    (hok : reply.ok = true) :
    handler cfg w req = HandlerResult.response ⟨"307", "Temporary Redirect", req.uri,
      some [cookieSerialize "id_token" reply.body.id_token ⟨true, none⟩,
        cookieSerialize "access_token" reply.body.access_token ⟨true, none⟩]⟩ ∧
    (∀ v, cookieSerialize "id_token" v ⟨true, none⟩ =
      "id_token=" ++ encodeURIComponentStr v ++ "; Secure") ∧
    (∀ v, cookieSerialize "access_token" v ⟨true, none⟩ =
      "access_token=" ++ encodeURIComponentStr v ++ "; Secure") := by
  have hbeq : (req.uri == "/login") = false := beq_eq_false_iff_ne.mpr hL
  have hb2 : (rt != "") = true := bne_iff_ne.mpr hrt2
  have htr : tryRefreshStep cfg w req (requestCookies req) =
      HandlerResult.response ⟨"307", "Temporary Redirect", req.uri,
        some [cookieSerialize "id_token" reply.body.id_token ⟨true, none⟩,
          cookieSerialize "access_token" reply.body.access_token ⟨true, none⟩]⟩ := by
    simp [tryRefreshStep, hrt, truthy, hb2, refreshCredentials, hep, hok]
  refine ⟨?_, fun v => rfl, fun v => rfl⟩
  rcases hid with hid | ⟨e, he⟩
  · simp [handler, hbeq, idTokenStep, hid, htr]
  · cases hidv : truthy (requestCookies req "id_token")
    · simp [handler, hbeq, idTokenStep, hidv, htr]
    · simp [handler, hbeq, idTokenStep, hidv, he, htr]

theorem c4_witness :
    handler cfgA wA reqRefresh = HandlerResult.response ⟨"307", "Temporary Redirect", "/page",
      some [cookieSerialize "id_token" "newid" ⟨true, none⟩,
        cookieSerialize "access_token" "newacc" ⟨true, none⟩]⟩ :=
  (c4_refresh_success cfgA wA reqRefresh "R" okRefreshReply (by decide) (Or.inl (by decide))
    rfl (by decide) rfl rfl).1

/-- C4 counterexample: on the login path (no code) the very same cookie
state — no identity token, a refresh token whose exchange would succeed —
is answered with a pass-through, not a 307, so the claim fails without a
path restriction. -/
theorem c4_counterexample :
    requestCookies reqLoginRefresh "refresh_token" = some "R" ∧
      requestCookies reqLoginRefresh "id_token" = none ∧
      wA.refreshEndpoint (refreshExchangeBody cfgA "R") = some okRefreshReply ∧
      okRefreshReply.ok = true ∧
      handler cfgA wA reqLoginRefresh = HandlerResult.passthrough reqLoginRefresh ∧
      handler cfgA wA reqLoginRefresh ≠
        HandlerResult.response ⟨"307", "Temporary Redirect", reqLoginRefresh.uri,
          some [cookieSerialize "id_token" "newid" ⟨true, none⟩,
            cookieSerialize "access_token" "newacc" ⟨true, none⟩]⟩ :=
  ⟨rfl, rfl, rfl, rfl, rfl, by decide⟩

/-- C5: a login-path request with a code whose exchange fails (the thrown
exchange error) is answered with the original request unmodified — no
error status and no Set-Cookie headers. -/
theorem c5_exchange_failure_passthrough (cfg : Env) (w : World) (req : CFRequest) (c e : String)
    (hL : req.uri = "/login") (hq : qsGet (parseQuery req.querystring) "code" = some c)
    (hc : c ≠ "") (hfail : getNewCredentials cfg w c = Except.error e) :
    handler cfg w req = HandlerResult.passthrough req := by
  have hb : (c != "") = true := bne_iff_ne.mpr hc
  simp [handler, hL, hq, truthy, hb, hfail]

theorem c5_witness : handler cfgA wFail reqLoginCode = HandlerResult.passthrough reqLoginCode :=
  c5_exchange_failure_passthrough cfgA wFail reqLoginCode "XYZ"
    "Error fetching new credentials: 400 Bad Request invalid_grant" rfl rfl (by decide) rfl

/-- C6: the validator accepts a token exactly when the signature verifies
and the issuer, audience, (exclusive) expiry and token-use checks pass;
any validation error makes the handler fall through to the refresh /
re-auth step, with the same outcome whatever the error was. -/
theorem c6_checkToken_characterization (cfg : Env) (w : World) (tok : String) :
    (checkToken cfg w tok = Except.ok () ↔
      ∃ claims, w.verifyJWT tok = some claims ∧ claims.iss = cognitoIssuer cfg ∧
        claims.aud = cfg.CLIENT_ID ∧ w.now < claims.exp ∧ claims.token_use = "id") ∧
    (∀ (req : CFRequest) (e : String), req.uri ≠ "/login" →
      requestCookies req "id_token" = some tok → tok ≠ "" →
      checkToken cfg w tok = Except.error e →
      handler cfg w req = tryRefreshStep cfg w req (requestCookies req)) := by
  constructor
  · constructor
    · intro h
      cases hv : w.verifyJWT tok with
      | none =>
        simp only [checkToken, jwtVerify, hv] at h
        exact absurd h (by simp)
      | some claims =>
        simp only [checkToken, jwtVerify, hv] at h
        by_cases h1 : claims.iss ≠ cognitoIssuer cfg
        · rw [if_pos h1] at h
          exact absurd h (by simp)
        rw [if_neg h1] at h
        by_cases h2 : claims.aud ≠ cfg.CLIENT_ID
        · rw [if_pos h2] at h
          exact absurd h (by simp)
        rw [if_neg h2] at h
        by_cases h3 : claims.exp ≤ w.now
        · rw [if_pos h3] at h
          exact absurd h (by simp)
        rw [if_neg h3] at h
        by_cases h4 : claims.token_use ≠ "id"
        · rw [show (match Except.ok claims with
              | Except.error e => (Except.error e : Except String Unit)
              | Except.ok payload =>
                if payload.token_use ≠ "id" then
                  Except.error ("Invalid token use: " ++ payload.token_use)
                else Except.ok ()) =
              (if claims.token_use ≠ "id" then
                Except.error ("Invalid token use: " ++ claims.token_use)
              else Except.ok ()) from rfl, if_pos h4] at h
          exact absurd h (by simp)
        · exact ⟨claims, rfl, not_not.mp h1, not_not.mp h2, not_le.mp h3, not_not.mp h4⟩
    · rintro ⟨claims, hv, h1, h2, h3, h4⟩
      simp only [checkToken, jwtVerify, hv]
      rw [if_neg (by simp [h1]), if_neg (by simp [h2]), if_neg (not_le.mpr h3)]
      simp [h4]
  · intro req e hL hcook htok hchk
    have hbeq : (req.uri == "/login") = false := beq_eq_false_iff_ne.mpr hL
    have hidt : truthy (requestCookies req "id_token") = true := by
      rw [hcook]
      simpa [truthy] using bne_iff_ne.mpr htok
    simp [handler, hbeq, idTokenStep, hidt, hcook, hchk]

theorem c6_witness :
    handler cfgA wBoundary reqToken =
      tryRefreshStep cfgA wBoundary reqToken (requestCookies reqToken) :=
  (c6_checkToken_characterization cfgA wBoundary "T").2 reqToken
    "exp claim timestamp check failed" (by decide) rfl (by decide) rfl

/-- C7: on the login path with a code, the code-exchange branch decides
the response even when a valid identity-token cookie is present. -/
theorem c7_login_code_precedence (cfg : Env) (w : World) (req : CFRequest) (c : String)
    (hL : req.uri = "/login") (hq : qsGet (parseQuery req.querystring) "code" = some c)
    (hc : c ≠ "")
    (hid : truthy (requestCookies req "id_token") = true)
    (hok : checkToken cfg w ((requestCookies req "id_token").getD "") = Except.ok ()) :
    handler cfg w req =
      (match getNewCredentials cfg w c with
        | Except.ok newCookies =>
          HandlerResult.response ⟨"307", "Temporary Redirect", "/", some newCookies⟩
        | Except.error _ => HandlerResult.passthrough req) := by
  have hb : (c != "") = true := bne_iff_ne.mpr hc
  cases hgc : getNewCredentials cfg w c with
  | ok l => simp [handler, hL, hq, truthy, hb, hgc]
  | error e => simp [handler, hL, hq, truthy, hb, hgc]

theorem c7_witness :
    handler cfgA wA reqLoginCodeWithToken =
      (match getNewCredentials cfgA wA "XYZ" with
        | Except.ok newCookies =>
          HandlerResult.response ⟨"307", "Temporary Redirect", "/", some newCookies⟩
        | Except.error _ => HandlerResult.passthrough reqLoginCodeWithToken) :=
  c7_login_code_precedence cfgA wA reqLoginCodeWithToken "XYZ" rfl rfl (by decide)
    (by decide) rfl

/-- C8 (amended): the parsed mapping of all Cookie headers gives, for each
name, the first occurrence within the LAST header that mentions the name:
across headers the last header wins, within one header the first
occurrence wins. -/
theorem c8_cookie_merge (hs : List String) (q : String) :
    parseCookies hs q = hs.reverse.findSome? (fun h => (cookiePairs h).lookup q) := by
  have h1 := foldlAssignApply (hs.map cookieParse) emptyStrMap q
  have h2 : parseCookies hs q = ((hs.map cookieParse).foldl objAssign emptyStrMap) q := rfl
  rw [h2, h1, mapReverseTW, findSomeMapTW]
  simp only [cookieParseApply]
  cases h : hs.reverse.findSome? (fun h => (cookiePairs h).lookup q) <;> simp [emptyStrMap]

/-- C8 counterexample: within a single Cookie header the FIRST occurrence
of a duplicated name wins (`a=1; a=2` parses to `1`), so "last-seen value
wins" fails; across separate headers the last header does win. -/
theorem c8_counterexample :
    parseCookies ["a=1; a=2"] "a" = some "1" ∧
      (some "1" : Option String) ≠ some "2" ∧
      parseCookies ["a=1", "a=2"] "a" = some "2" :=
  ⟨rfl, by decide, rfl⟩

/-- C9: an identity token whose expiry equals the current time fails
validation — the expiry comparison is exclusive. -/
theorem c9_expiry_boundary (cfg : Env) (w : World) (tok : String) (claims : TokenClaims)
    (hv : w.verifyJWT tok = some claims) (he : claims.exp = w.now) :
    isErrorResult (checkToken cfg w tok) = true := by
  simp only [checkToken, jwtVerify, hv]
  split_ifs with h1 h2 h3 <;> first | rfl | exact absurd (Nat.le_of_eq he) h3

theorem c9_witness : isErrorResult (checkToken cfgA wBoundary "T") = true :=
  c9_expiry_boundary cfgA wBoundary "T" claimsA rfl rfl

/-- C10: a request whose header map has no Cookie key parses to the empty
cookie mapping, and on a non-login path without a login code the handler
reaches the 303 redirect to the identity provider. -/
theorem c10_no_cookie_header_total (cfg : Env) (w : World) (req : CFRequest)
    (hh : req.cookieHdrs = none) (hL : req.uri ≠ "/login")
    (hq : qsGet (parseQuery req.querystring) "code" = none) :
    (∀ n, requestCookies req n = none) ∧
      handler cfg w req = HandlerResult.response ⟨"303", "See Other", authLocation cfg, none⟩ := by
  have hemp : ∀ n, requestCookies req n = none := by
    intro n
    simp [requestCookies, cookieList, hh, parseCookies, emptyStrMap]
  refine ⟨hemp, ?_⟩
  have hbeq : (req.uri == "/login") = false := beq_eq_false_iff_ne.mpr hL
  simp [handler, hbeq, hq, truthy, idTokenStep, tryRefreshStep, authRedirectStep, hemp]

theorem c10_witness :
    handler cfgA wA reqPlain = HandlerResult.response ⟨"303", "See Other", authLocation cfgA, none⟩ :=
  (c10_no_cookie_header_total cfgA wA reqPlain rfl (by decide) rfl).2
